import Mathlib

/-!
Shallow embedding of the pyo3 macro backend's method-signature analysis
(`pyo3-macros-backend/src/method.rs`): classification of method attributes,
receiver resolution, text-signature handling and assembly of a validated
`FnSpec` ("call specification") for a native function declaration.

Modelling conventions:
- `syn` syntax nodes are modelled structurally by the small inductives below;
  source spans are dropped (diagnostics are modelled by their message strings).
- Fallible Rust functions returning `syn::Result` become `Except String`.
- Identifiers are Lean `String`s; a raw identifier carries its literal
  `r#` source text, and `unraw` strips it (mirroring `syn::ext::IdentExt::unraw`).
-/

/-- A `syn::Lit`: only string literals are distinguished, every other literal
form falls into the `other` case (which the source rejects where a string is
required). -/
inductive Lit where
  | str (s : String)
  | other
deriving DecidableEq, Repr

/-- A `syn::NestedMeta` as consumed by the attribute classifier. The source
only ever matches a nested path meta (`Meta::Path`) or a literal; any other
nested meta falls to a catch-all error arm and is modelled by `metaOther`. -/
inductive NestedMeta where
  | metaPath (segments : List String)
  | lit (l : Lit)
  | metaOther
deriving DecidableEq, Repr

/-- A parsed `syn::Meta`: a bare path, a list `path(nested, ...)`, or a
name-value pair `path = lit`. Paths are segment lists; `is_ident x`
corresponds to the path being the single segment `[x]`. -/
inductive Meta where
  | path (segments : List String)
  | list (path : List String) (nested : List NestedMeta)
  | nameValue (path : List String) (l : Lit)
deriving DecidableEq, Repr

/-- `syn::AttrStyle`: outer `#[...]` or inner `#![...]`. -/
inductive AttrStyle where
  | outer
  | inner
deriving DecidableEq, Repr

/-- A `syn::Attribute` whose tokens have been parsed to a `Meta`
(the source calls `attr.parse_meta()` on every attribute it inspects). -/
structure Attr where
  style : AttrStyle
  meta : Meta
deriving DecidableEq, Repr

/-- The subset of `syn::Type` shapes the analysis distinguishes:
`impl Trait` types, the runtime token type `Python`, `Option<T>`,
the inferred type `_`, and everything else by name. -/
inductive Ty where
  | implTrait
  | python
  | option (t : Ty)
  | infer
  | named (s : String)
deriving DecidableEq, Repr

/-- The subset of `syn::Pat` the analysis distinguishes: an identifier
pattern (with by-ref and mutability markers) and everything else. -/
inductive Pat where
  | ident (name : String) (by_ref : Bool) (mutable : Bool)
  | wild
  | other
deriving DecidableEq, Repr

/-- A `syn::FnArg`: a receiver (`self`/`&self`/`&mut self`, with its
mutability) or a typed argument `pat : ty` carrying its own attributes. -/
inductive SynFnArg where
  | receiver (mutable : Bool)
  | typed (pat : Pat) (ty : Ty) (attrs : List Attr)
deriving DecidableEq, Repr

/-- `syn::ReturnType`: either defaulted (no `->`) or an explicit type. -/
inductive ReturnType where
  | default
  | ty (t : Ty)
deriving DecidableEq, Repr

/-- The subset of `syn::Signature` the analysis reads: the function's
identifier, its generic type parameters, its inputs and its output.
Unread fields (constness, unsafety, abi, ...) are omitted. -/
structure Signature where
  ident : String
  generics : List String
  inputs : List SynFnArg
  output : ReturnType
deriving DecidableEq, Repr

/-- A classified `#[args(...)]` argument-shape attribute
(`pyfunction::Argument` from the source crate). -/
inductive Argument where
  | VarArgsSeparator
  | VarArgs (path : List String)
  | KeywordArgs (path : List String)
  | Arg (path : List String) (default : Option String)
  | Kwarg (path : List String) (default : Option String)
deriving DecidableEq, Repr

/-- The options handed to `FnSpec::parse` by the caller
(`pyfunction::PyFunctionOptions`): an optional external-name override and
accumulated deprecation notices. -/
structure PyFunctionOptions where
  name : Option String
  deprecations : List String
deriving DecidableEq, Repr

/-- Mirrors `syn::ext::IdentExt::unraw`: strips a leading `r#` from a raw
identifier's source text. -/
def unraw (s : String) : String :=
  if "r#".toList.isPrefixOf s.toList then String.mk (s.toList.drop 2) else s

/-- Modelled from the spec: `utils::is_python` (file `utils.rs`, not under
src) recognizes the runtime-context-token type (`Python`), marking a
parameter excluded from the dynamic calling convention. -/
def is_python (t : Ty) : Bool :=
  t == Ty.python

/-- Modelled from the spec: `utils::option_type_argument` (file `utils.rs`,
not under src) exposes the inner type of an `Option<T>` parameter, used for
the optional-parameter default machinery. -/
def option_type_argument (t : Ty) : Option Ty :=
  match t with
  | Ty.option inner => some inner
  | _ => none

/-- Modelled from the spec: `utils::parse_text_signature_attrs` (file
`utils.rs`, not under src) extracts a requested generated-signature text
from the annotation list and removes the request: the first
`text_signature = "..."` name-value annotation is taken out and its string
returned together with the remaining list; `none` when no request exists. -/
def extract_text_signature : List Attr → Option (String × List Attr)
  | [] => none
  | a :: rest =>
    match a.meta with
    | Meta.nameValue p (Lit.str s) =>
      if p == ["text_signature"] then some (s, rest)
      else (extract_text_signature rest).map (fun pr => (pr.1, a :: pr.2))
    | _ => (extract_text_signature rest).map (fun pr => (pr.1, a :: pr.2))

/-- Modelled from the spec: `utils::get_doc` (file `utils.rs`, not under
src) builds the documentation text from the declaration's doc annotations,
with the generated signature text, when present, prepended. -/
def get_doc (attrs : List Attr) (text_signature : Option String) : String :=
  let docLines := attrs.filterMap (fun a =>
    match a.meta with
    | Meta.nameValue p (Lit.str s) => if p == ["doc"] then some s else none
    | _ => none)
  (match text_signature with
   | some ts => ts ++ "\n--\n\n"
   | none => "") ++ String.intercalate "\n" docLines

/-- The `IMPL_TRAIT_ERR` message constant of `method.rs`. -/
def IMPL_TRAIT_ERR : String := "Python functions cannot have `impl Trait` arguments"

/-- Per-argument pyo3 attributes (`pyfunction::PyFunctionArgPyO3Attributes`). -/
structure PyFunctionArgPyO3Attributes where
  attrs : List Attr
deriving DecidableEq, Repr

/-- Modelled from the spec: per-argument attribute extraction
(`PyFunctionArgPyO3Attributes::from_attrs`, file `pyfunction.rs`, not under
src). The spec's ParameterDescriptor carries no per-argument annotation
data consumed by any rule modelled here, so the raw argument annotations
are retained unchanged. -/
def PyFunctionArgPyO3Attributes.from_attrs (attrs : List Attr) :
    Except String PyFunctionArgPyO3Attributes :=
  Except.ok ⟨attrs⟩

/-- `method::FnArg`: a validated user-facing argument descriptor. -/
structure FnArg where
  name : String
  by_ref : Bool
  mutability : Bool
  ty : Ty
  optional : Option Ty
  py : Bool
  attrs : PyFunctionArgPyO3Attributes
deriving DecidableEq, Repr

/-- Mirrors `FnArg::parse`: transforms a `syn::FnArg` into a `method::FnArg`.
A receiver is rejected here ("unexpected receiver" — receivers are handled
in `parse_fn_type`), an `impl Trait` type is rejected, and a non-identifier
pattern is rejected as "unsupported argument". -/
def FnArg.parse (arg : SynFnArg) : Except String FnArg :=
  match arg with
  | SynFnArg.receiver _ => Except.error "unexpected receiver"
  | SynFnArg.typed pat ty attrs =>
    if ty == Ty.implTrait then Except.error IMPL_TRAIT_ERR
    else
      match PyFunctionArgPyO3Attributes.from_attrs attrs with
      | Except.error e => Except.error e
      | Except.ok argAttrs =>
        match pat with
        | Pat.ident nm r m =>
          Except.ok { name := nm, by_ref := r, mutability := m, ty := ty,
                      optional := option_type_argument ty, py := is_python ty,
                      attrs := argAttrs }
        | _ => Except.error "unsupported argument"

/-- `method::MethodTypeAttribute`: the binding-kind tags. -/
inductive MethodTypeAttribute where
  | New
  | Call
  | ClassMethod
  | ClassAttribute
  | StaticMethod
  | Getter
  | Setter
deriving DecidableEq, Repr

/-- `method::SelfType`: how the receiver object is bound. Spans are dropped,
so `TryFromPyCell` carries no payload here. -/
inductive SelfType where
  | Receiver (mutable : Bool)
  | TryFromPyCell
deriving DecidableEq, Repr

/-- `method::FnType`: the resolved binding kind with its receiver binding. -/
inductive FnType where
  | Getter (st : SelfType)
  | Setter (st : SelfType)
  | Fn (st : SelfType)
  | FnCall (st : SelfType)
  | FnNew
  | FnClass
  | FnStatic
  | ClassAttribute
deriving DecidableEq, Repr

/-- `method::FnSpec`: the assembled call specification. -/
structure FnSpec where
  tp : FnType
  name : String
  python_name : String
  attrs : List Argument
  args : List FnArg
  output : Ty
  doc : String
  deprecations : List String
deriving DecidableEq, Repr

/-- Mirrors `get_return_info`: a defaulted return type becomes the inferred
type `_`. -/
def get_return_info (output : ReturnType) : Ty :=
  match output with
  | ReturnType.default => Ty.infer
  | ReturnType.ty t => t

/-- Mirrors `parse_method_receiver`: a receiver argument binds by borrow
(with its mutability); a typed first argument binds by fallible conversion
from the wrapper cell, unless its type is `impl Trait`. -/
def parse_method_receiver (arg : SynFnArg) : Except String SelfType :=
  match arg with
  | SynFnArg.receiver m => Except.ok (SelfType.Receiver m)
  | SynFnArg.typed _ ty _ =>
    match ty with
    | Ty.implTrait => Except.error IMPL_TRAIT_ERR
    | _ => Except.ok SelfType.TryFromPyCell

/-- `method::MethodAttributes`: the classifier's output partition. -/
structure MethodAttributes where
  ty : Option MethodTypeAttribute
  args : List Argument
  python_name : Option String
deriving DecidableEq, Repr

/-- The loop state of `parse_method_attributes`: the attributes kept so far,
the accumulated argument-shape attributes, the binding-kind tag seen so far
and the external-name override seen so far. -/
structure AttrState where
  new_attrs : List Attr
  args : List Argument
  ty : Option MethodTypeAttribute
  python_name : Option String
deriving DecidableEq, Repr

/-- Mirrors the `set_ty!` macro of `parse_method_attributes`: setting the
binding-kind tag fails when one is already present. -/
def set_ty (newTy : MethodTypeAttribute) (st : AttrState) : Except String AttrState :=
  match st.ty with
  | some _ => Except.error "cannot specify a second method type"
  | none => Except.ok { st with ty := some newTy }

/-- Modelled from the spec: `PyFunctionSignature::from_meta` (file
`pyfunction.rs`, not under src) normalizes the nested values of an
`#[args(...)]` annotation into argument-shape attributes; a bare
single-segment path names a positional parameter, and unsupported nested
forms are rejected. -/
def PyFunctionSignature.from_meta : List NestedMeta → Except String (List Argument)
  | [] => Except.ok []
  | NestedMeta.metaPath [n] :: rest =>
    match PyFunctionSignature.from_meta rest with
    | Except.error e => Except.error e
    | Except.ok more => Except.ok (Argument.Arg [n] none :: more)
  | NestedMeta.lit (Lit.str lv) :: rest =>
    if lv == "*" then
      match PyFunctionSignature.from_meta rest with
      | Except.error e => Except.error e
      | Except.ok more => Except.ok (Argument.VarArgsSeparator :: more)
    else Except.error "expected identifier from pyfunction macro"
  | _ :: _ => Except.error "expected identifier from pyfunction macro"

/-- One iteration of the `for attr in attrs.drain(..)` loop of
`parse_method_attributes`, processing a single attribute against the
current state. -/
def parse_method_attributes_step (a : Attr) (st : AttrState) : Except String AttrState :=
  match a.meta with
  | Meta.path nm =>
    if nm == ["new"] || nm == ["__new__"] then set_ty MethodTypeAttribute.New st
    else if nm == ["init"] || nm == ["__init__"] then
      Except.error "#[init] is disabled since PyO3 0.9.0"
    else if nm == ["call"] || nm == ["__call__"] then set_ty MethodTypeAttribute.Call st
    else if nm == ["classmethod"] then set_ty MethodTypeAttribute.ClassMethod st
    else if nm == ["staticmethod"] then set_ty MethodTypeAttribute.StaticMethod st
    else if nm == ["classattr"] then set_ty MethodTypeAttribute.ClassAttribute st
    else if nm == ["setter"] || nm == ["getter"] then
      match a.style with
      | AttrStyle.inner =>
        Except.error "inner attribute is not supported for setter and getter"
      | AttrStyle.outer =>
        set_ty (if nm == ["setter"] then MethodTypeAttribute.Setter
                else MethodTypeAttribute.Getter) st
    else Except.ok { st with new_attrs := st.new_attrs ++ [a] }
  | Meta.list p nested =>
    if p == ["new"] then set_ty MethodTypeAttribute.New st
    else if p == ["init"] then Except.error "#[init] is disabled since PyO3 0.9.0"
    else if p == ["call"] then set_ty MethodTypeAttribute.Call st
    else if p == ["setter"] || p == ["getter"] then
      match a.style with
      | AttrStyle.inner =>
        Except.error "inner attribute is not supported for setter and getter"
      | AttrStyle.outer =>
        if nested.length == 1 then
          match set_ty (if p == ["setter"] then MethodTypeAttribute.Setter
                        else MethodTypeAttribute.Getter) st with
          | Except.error e => Except.error e
          | Except.ok st1 =>
            match st1.python_name with
            | some _ => Except.error "`name` may only be specified once"
            | none =>
              match nested.getLast? with
              | some (NestedMeta.metaPath [seg]) =>
                Except.ok { st1 with python_name := some seg }
              | some (NestedMeta.lit (Lit.str s)) =>
                Except.ok { st1 with python_name := some s }
              | some (NestedMeta.lit _) =>
                Except.error "setter/getter attribute requires str value"
              | _ => Except.error "expected ident or string literal for property name"
        else Except.error "setter/getter requires one value"
    else if p == ["args"] then
      match PyFunctionSignature.from_meta nested with
      | Except.error e => Except.error e
      | Except.ok parsed => Except.ok { st with args := st.args ++ parsed }
    else Except.ok { st with new_attrs := st.new_attrs ++ [a] }
  | Meta.nameValue _ _ => Except.ok { st with new_attrs := st.new_attrs ++ [a] }

/-- The `for` loop of `parse_method_attributes`, folded over the drained
attribute list. -/
def parse_method_attributes_aux : List Attr → AttrState → Except String AttrState
  | [], st => Except.ok st
  | a :: rest, st =>
    match parse_method_attributes_step a st with
    | Except.error e => Except.error e
    | Except.ok st1 => parse_method_attributes_aux rest st1

/-- Mirrors `parse_method_attributes`: classifies the declaration's
annotation list into a binding-kind tag, argument-shape attributes and an
external-name override, and returns the filtered list of annotations that
were not consumed (the source writes it back through `&mut`). -/
def parse_method_attributes (attrs : List Attr) (python_name : Option String) :
    Except String (MethodAttributes × List Attr) :=
  match parse_method_attributes_aux attrs
      { new_attrs := [], args := [], ty := none, python_name := python_name } with
  | Except.error e => Except.error e
  | Except.ok st =>
    Except.ok ({ ty := st.ty, args := st.args, python_name := st.python_name },
               st.new_attrs)

/-- The receiver lookup `parse_receiver` closed over in `parse_fn_type`:
the first input must exist (else the given message is the error) and is
resolved by `parse_method_receiver`. -/
def parse_receiver (sig : Signature) (msg : String) : Except String SelfType :=
  match sig.inputs.head? with
  | none => Except.error msg
  | some firstArg => parse_method_receiver firstArg

/-- The `strip_fn_name` closure of `parse_fn_type`: strips the given fixed
leading text from the unrawed function name, when present. -/
def strip_fn_name (name : String) (pre : String) : Option String :=
  let ident := unraw name
  if pre.toList.isPrefixOf ident.toList then
    some (String.mk (ident.toList.drop pre.toList.length))
  else none

/-- Mirrors `FnSpec::parse_fn_type`: resolves the binding kind and whether
the first input is skipped during argument collection; for getters and
setters the external name, when not overridden, is derived by stripping the
recognized leading text from the function's own name. Returns the possibly
updated name override (the source updates it through `&mut`). -/
def FnSpec.parse_fn_type (sig : Signature) (fn_type_attr : Option MethodTypeAttribute)
    (python_name : Option String) :
    Except String (FnType × Bool × Option String) :=
  match fn_type_attr with
  | some MethodTypeAttribute.StaticMethod =>
    Except.ok (FnType.FnStatic, false, python_name)
  | some MethodTypeAttribute.ClassAttribute =>
    if sig.inputs.isEmpty then Except.ok (FnType.ClassAttribute, false, python_name)
    else Except.error "class attribute methods cannot take arguments"
  | some MethodTypeAttribute.New => Except.ok (FnType.FnNew, false, python_name)
  | some MethodTypeAttribute.ClassMethod => Except.ok (FnType.FnClass, true, python_name)
  | some MethodTypeAttribute.Call =>
    match parse_receiver sig "expected receiver for #[call]" with
    | Except.error e => Except.error e
    | Except.ok st => Except.ok (FnType.FnCall st, true, python_name)
  | some MethodTypeAttribute.Getter =>
    let pn := if python_name.isNone then strip_fn_name sig.ident "get_" else python_name
    match parse_receiver sig "expected receiver for #[getter]" with
    | Except.error e => Except.error e
    | Except.ok st => Except.ok (FnType.Getter st, true, pn)
  | some MethodTypeAttribute.Setter =>
    let pn := if python_name.isNone then strip_fn_name sig.ident "set_" else python_name
    match parse_receiver sig "expected receiver for #[setter]" with
    | Except.error e => Except.error e
    | Except.ok st => Except.ok (FnType.Setter st, true, pn)
  | none =>
    match parse_receiver sig "static method needs #[staticmethod] attribute" with
    | Except.error e => Except.error e
    | Except.ok st => Except.ok (FnType.Fn st, true, python_name)

/-- Mirrors `FnSpec::parse_text_signature`: a generated-signature request is
honoured for plain, class and static methods; on `__new__` it is a hard
error with a dedicated message, and on call operators, getters, setters and
class attributes it is a hard error with a shared message. Returns the
extracted signature text and the remaining attributes. -/
def FnSpec.parse_text_signature (meth_attrs : List Attr) (fn_type : FnType)
    (_python_name : String) : Except String (Option String × List Attr) :=
  match fn_type with
  | FnType.Fn _ | FnType.FnClass | FnType.FnStatic =>
    match extract_text_signature meth_attrs with
    | some (v, rest) => Except.ok (some v, rest)
    | none => Except.ok (none, meth_attrs)
  | FnType.FnNew =>
    match extract_text_signature meth_attrs with
    | some _ =>
      Except.error "text_signature not allowed on __new__; if you want to add a signature on __new__, put it on the struct definition instead"
    | none => Except.ok (none, meth_attrs)
  | FnType.FnCall _ | FnType.Getter _ | FnType.Setter _ | FnType.ClassAttribute =>
    match extract_text_signature meth_attrs with
    | some _ => Except.error "text_signature not allowed with this method type"
    | none => Except.ok (none, meth_attrs)

/-- Mirrors `FnSpec::parse`: classifies the declaration's attributes,
enforces the name rules for `#[new]` and `#[call]`, resolves the binding
kind and receiver, resolves the external name (falling back to the unrawed
function name), handles the text-signature request, builds the doc text and
collects the validated arguments (skipping the receiver slot when one was
resolved). -/
def FnSpec.parse (sig : Signature) (meth_attrs : List Attr)
    (options : PyFunctionOptions) : Except String FnSpec :=
  match parse_method_attributes meth_attrs options.name with
  | Except.error e => Except.error e
  | Except.ok (ma, attrs1) =>
    match (match ma.ty with
           | some MethodTypeAttribute.New =>
             match ma.python_name with
             | some _ => Except.error "`name` not allowed with `#[new]`"
             | none => Except.ok (some "__new__")
           | some MethodTypeAttribute.Call =>
             match ma.python_name with
             | some _ => Except.error "`name` not allowed with `#[call]`"
             | none => Except.ok (some "__call__")
           | _ => Except.ok ma.python_name) with
    | Except.error e => Except.error e
    | Except.ok python_name0 =>
      match FnSpec.parse_fn_type sig ma.ty python_name0 with
      | Except.error e => Except.error e
      | Except.ok (fn_type, skip_first_arg, python_name1) =>
        let name := sig.ident
        let ty := get_return_info sig.output
        let python_name := unraw (python_name1.getD name)
        match FnSpec.parse_text_signature attrs1 fn_type python_name with
        | Except.error e => Except.error e
        | Except.ok (text_signature, attrs2) =>
          let doc := get_doc attrs2 text_signature
          match (if skip_first_arg then sig.inputs.drop 1 else sig.inputs).mapM
              FnArg.parse with
          | Except.error e => Except.error e
          | Except.ok arguments =>
            Except.ok { tp := fn_type, name := name, python_name := python_name,
                        attrs := ma.args, args := arguments, output := ty,
                        doc := doc, deprecations := options.deprecations }

/-- Mirrors `FnSpec::is_args`: whether an argument-shape attribute marks the
given name as the variadic-positional collector. -/
def FnSpec.is_args (spec : FnSpec) (name : String) : Bool :=
  spec.attrs.any (fun s =>
    match s with
    | Argument.VarArgs p => p == [name]
    | _ => false)

/-- Mirrors `FnSpec::is_kwargs`: whether an argument-shape attribute marks
the given name as the variadic-keyword collector. -/
def FnSpec.is_kwargs (spec : FnSpec) (name : String) : Bool :=
  spec.attrs.any (fun s =>
    match s with
    | Argument.KeywordArgs p => p == [name]
    | _ => false)

/-- Mirrors `FnSpec::default_value`: the first default expression an
argument-shape attribute records for the given name. -/
def FnSpec.default_value (spec : FnSpec) (name : String) : Option String :=
  spec.attrs.findSome? (fun s =>
    match s with
    | Argument.Arg p v | Argument.Kwarg p v =>
      if p == [name] then v else none
    | _ => none)

/-- Mirrors `FnSpec::is_kw_only`: whether an argument-shape attribute marks
the given name keyword-only. -/
def FnSpec.is_kw_only (spec : FnSpec) (name : String) : Bool :=
  spec.attrs.any (fun s =>
    match s with
    | Argument.Kwarg p _ => p == [name]
    | _ => false)

/-- Mirrors `FnSpec::null_terminated_python_name`. -/
def FnSpec.null_terminated_python_name (spec : FnSpec) : String :=
  spec.python_name ++ "\x00"

/-- Modelled from the spec: the open-generics check of the macro entry point
is not under src (only its UI test `tests/ui/invalid_pymethods.rs` is);
per the spec, a declaration with open generic type parameters fails with
UnsupportedParameterShape because the calling convention must be fully
concrete at code-generation time. -/
def check_generic (sig : Signature) : Except String Unit :=
  if sig.generics.isEmpty then Except.ok ()
  else Except.error "UnsupportedParameterShape: Python functions cannot have generic type parameters"

/-- Modelled from the spec: the macro entry point that assembles one
declaration (not under src) runs the open-generics check and then
`FnSpec::parse`. -/
def assemble_declaration (sig : Signature) (meth_attrs : List Attr)
    (options : PyFunctionOptions) : Except String FnSpec :=
  match check_generic sig with
  | Except.error e => Except.error e
  | Except.ok _ => FnSpec.parse sig meth_attrs options

/-- Whether a classification result is a success. -/
def exceptIsOk {α : Type} (x : Except String α) : Bool :=
  match x with
  | Except.ok _ => true
  | Except.error _ => false

/-- An annotation that `parse_method_attributes` recognizes as a
binding-kind tag: the bare tags, their dunder spellings, and the
list-shaped property-accessor tags (which may carry a name override). -/
def is_binding_kind_tag (a : Attr) : Bool :=
  match a.meta with
  | Meta.path nm =>
    nm == ["new"] || nm == ["__new__"] || nm == ["call"] || nm == ["__call__"] ||
    nm == ["classmethod"] || nm == ["staticmethod"] || nm == ["classattr"] ||
    nm == ["setter"] || nm == ["getter"]
  | Meta.list p _ => p == ["new"] || p == ["call"] || p == ["setter"] || p == ["getter"]
  | Meta.nameValue _ _ => false

/-- An annotation that classification consumes on success: a binding-kind
tag (possibly carrying a name override) or an `args(...)` argument-shape
attribute. Everything else is passed through untouched. -/
def binding_related (a : Attr) : Bool :=
  is_binding_kind_tag a ||
  (match a.meta with
   | Meta.list p _ => p == ["args"]
   | _ => false)

/-- The external-name resolution rule for property accessors, stated as in
the specification: the explicit override takes priority; otherwise the
recognized leading text is stripped from the declaration's own name when
present; otherwise the full name is used — each modulo raw-identifier
unescaping. -/
def resolved_property_name (override : Option String) (fn_name : String)
    (pre : String) : String :=
  unraw (match override with
         | some n => n
         | none =>
           match strip_fn_name fn_name pre with
           | some stripped => stripped
           | none => fn_name)

/-! Concrete declaration fixtures used by witnesses and counterexamples. -/

/-- The annotation `#[getter]`. -/
def getterAttr : Attr := { style := AttrStyle.outer, meta := Meta.path ["getter"] }

/-- The annotation `#[setter]`. -/
def setterAttr : Attr := { style := AttrStyle.outer, meta := Meta.path ["setter"] }

/-- The annotation `#[new]`. -/
def newAttr : Attr := { style := AttrStyle.outer, meta := Meta.path ["new"] }

/-- The annotation `#[call]`. -/
def callAttr : Attr := { style := AttrStyle.outer, meta := Meta.path ["call"] }

/-- The annotation `#[classmethod]`. -/
def classmethodAttr : Attr :=
  { style := AttrStyle.outer, meta := Meta.path ["classmethod"] }

/-- The annotation `#[staticmethod]`. -/
def staticmethodAttr : Attr :=
  { style := AttrStyle.outer, meta := Meta.path ["staticmethod"] }

/-- The annotation `#[classattr]`. -/
def classattrAttr : Attr := { style := AttrStyle.outer, meta := Meta.path ["classattr"] }

/-- The annotation `#[getter(y)]`: a getter tag carrying a name override. -/
def getterNamedAttr : Attr :=
  { style := AttrStyle.outer,
    meta := Meta.list ["getter"] [NestedMeta.metaPath ["y"]] }

/-- The annotation `#[text_signature = "()"]`: a generated-signature
request. -/
def tsAttr : Attr :=
  { style := AttrStyle.outer, meta := Meta.nameValue ["text_signature"] (Lit.str "()") }

/-- A doc-comment annotation, not binding-related. -/
def docAttr : Attr :=
  { style := AttrStyle.outer, meta := Meta.nameValue ["doc"] (Lit.str " docs") }

/-- An unrelated marker annotation, not binding-related. -/
def inlineAttr : Attr := { style := AttrStyle.outer, meta := Meta.path ["inline"] }

/-- The annotation `#[args(z)]`: an argument-shape attribute. -/
def argsAttr : Attr :=
  { style := AttrStyle.outer, meta := Meta.list ["args"] [NestedMeta.metaPath ["z"]] }

/-- Empty parse options: no name override, no deprecations. -/
def optsNone : PyFunctionOptions := { name := none, deprecations := [] }

/-- A declaration `fn get_x(&self)`. -/
def sigGetX : Signature :=
  { ident := "get_x", generics := [],
    inputs := [SynFnArg.receiver false], output := ReturnType.default }

/-- A declaration `fn get_x(slf: PyRef)` — the first parameter is typed,
not a receiver-shaped self-reference. -/
def sigGetT : Signature :=
  { ident := "get_x", generics := [],
    inputs := [SynFnArg.typed (Pat.ident "slf" false false) (Ty.named "PyRef") []],
    output := ReturnType.default }

/-- A declaration `fn get_g()` with no parameters. -/
def sigNoArgs : Signature :=
  { ident := "get_g", generics := [], inputs := [], output := ReturnType.default }

/-- A declaration `fn f(&self)`. -/
def sigRecv : Signature :=
  { ident := "f", generics := [],
    inputs := [SynFnArg.receiver false], output := ReturnType.default }

/-- A declaration `fn generic_method<T>(value: T)` with an open generic
type parameter. -/
def sigGeneric : Signature :=
  { ident := "generic_method", generics := ["T"],
    inputs := [SynFnArg.typed (Pat.ident "value" false false) (Ty.named "T") []],
    output := ReturnType.default }
/-- C9: Assembly is deterministic and idempotent: the embedding of
`FnSpec::parse` is a pure function of the declaration, so assembling the
same declaration twice yields structurally equal results — equal `FnSpec`
values on success, identical diagnostics on failure. -/
theorem parse_deterministic (sig : Signature) (meth_attrs : List Attr)
    (options : PyFunctionOptions) :
    FnSpec.parse sig meth_attrs options = FnSpec.parse sig meth_attrs options := rfl

/-- C3 (amended): Assembly short-circuits within one declaration: the first
violation encountered aborts assembly and is returned as the sole
diagnostic. Any classification error is propagated unchanged as the overall
result with later violations never examined, and a Getter-tagged
declaration with an empty parameter list reports only the missing receiver,
whatever further violations (such as a forbidden generated-signature
request) the remaining annotations contain. -/
theorem parse_short_circuits (sig : Signature) (attrs : List Attr)
    (opts : PyFunctionOptions) :
    (∀ e, parse_method_attributes attrs opts.name = Except.error e →
      FnSpec.parse sig attrs opts = Except.error e) ∧
    (∀ ma rest, parse_method_attributes attrs opts.name = Except.ok (ma, rest) →
      ma.ty = some MethodTypeAttribute.Getter → sig.inputs = [] →
      FnSpec.parse sig attrs opts = Except.error "expected receiver for #[getter]") := by
  constructor
  · intro e h
    unfold FnSpec.parse
    rw [h]
  · intro ma rest h1 hty hinp
    simp [FnSpec.parse, h1, hty, FnSpec.parse_fn_type, parse_receiver, hinp]

theorem parse_short_circuits_witness :
    parse_method_attributes [classattrAttr, staticmethodAttr] optsNone.name =
      Except.error "cannot specify a second method type" ∧
    FnSpec.parse sigNoArgs [classattrAttr, staticmethodAttr] optsNone =
      Except.error "cannot specify a second method type" ∧
    FnSpec.parse sigNoArgs [getterAttr, tsAttr] optsNone =
      Except.error "expected receiver for #[getter]" :=
  ⟨rfl,
   (parse_short_circuits sigNoArgs [classattrAttr, staticmethodAttr] optsNone).1 _ rfl,
   (parse_short_circuits sigNoArgs [getterAttr, tsAttr] optsNone).2
     { ty := some MethodTypeAttribute.Getter, args := [], python_name := none }
     [tsAttr] rfl rfl rfl⟩

/-- C3 counterexample: a declaration with two independent violations — a
getter with no receiver that also requests generated-signature text —
reports only the first violation (the missing receiver); the second
violation is real, as removing the first (adding a receiver) surfaces it. -/
theorem parse_not_collecting_counterexample :
    FnSpec.parse sigNoArgs [getterAttr, tsAttr] optsNone =
      Except.error "expected receiver for #[getter]" ∧
    FnSpec.parse sigGetX [getterAttr, tsAttr] optsNone =
      Except.error "text_signature not allowed with this method type" :=
  ⟨rfl, rfl⟩

/-- C7: a declaration with an open generic type parameter fails assembly
with an UnsupportedParameterShape error, whatever its binding kind and
other annotations. -/
theorem generic_declaration_rejected (sig : Signature) (attrs : List Attr)
    (opts : PyFunctionOptions) (h : sig.generics ≠ []) :
    assemble_declaration sig attrs opts =
      Except.error "UnsupportedParameterShape: Python functions cannot have generic type parameters" := by
  unfold assemble_declaration check_generic
  cases hg : sig.generics with
  | nil => exact absurd hg h
  | cons a l => simp [hg]

theorem generic_declaration_rejected_witness :
    assemble_declaration sigGeneric [] optsNone =
      Except.error "UnsupportedParameterShape: Python functions cannot have generic type parameters" :=
  generic_declaration_rejected sigGeneric [] optsNone (by decide)

/-- C1 (amended): a generated-signature request succeeds exactly for the
plain, class-method and static-method kinds; on Constructor it is a hard
error with a dedicated diagnostic, and on CallOperator, Getter, Setter and
ClassAttribute it is a hard error with one shared diagnostic (distinct from
the Constructor one, but not distinct between those four kinds). -/
theorem text_signature_kind_rules (attrs : List Attr) (pn : String)
    (st : SelfType) (v : String) (rest : List Attr)
    (h : extract_text_signature attrs = some (v, rest)) :
    FnSpec.parse_text_signature attrs FnType.FnNew pn =
      Except.error "text_signature not allowed on __new__; if you want to add a signature on __new__, put it on the struct definition instead" ∧
    FnSpec.parse_text_signature attrs (FnType.FnCall st) pn =
      Except.error "text_signature not allowed with this method type" ∧
    FnSpec.parse_text_signature attrs (FnType.Getter st) pn =
      Except.error "text_signature not allowed with this method type" ∧
    FnSpec.parse_text_signature attrs (FnType.Setter st) pn =
      Except.error "text_signature not allowed with this method type" ∧
    FnSpec.parse_text_signature attrs FnType.ClassAttribute pn =
      Except.error "text_signature not allowed with this method type" ∧
    FnSpec.parse_text_signature attrs (FnType.Fn st) pn = Except.ok (some v, rest) ∧
    FnSpec.parse_text_signature attrs FnType.FnClass pn = Except.ok (some v, rest) ∧
    FnSpec.parse_text_signature attrs FnType.FnStatic pn = Except.ok (some v, rest) ∧
    "text_signature not allowed on __new__; if you want to add a signature on __new__, put it on the struct definition instead" ≠
      "text_signature not allowed with this method type" := by
  refine ⟨?_, ?_, ?_, ?_, ?_, ?_, ?_, ?_, ?_⟩ <;>
    simp [FnSpec.parse_text_signature, h]

theorem text_signature_kind_rules_witness :
    extract_text_signature [tsAttr] = some ("()", []) ∧
    FnSpec.parse_text_signature [tsAttr] FnType.FnNew "f" =
      Except.error "text_signature not allowed on __new__; if you want to add a signature on __new__, put it on the struct definition instead" ∧
    FnSpec.parse_text_signature [tsAttr] FnType.FnStatic "f" =
      Except.ok (some "()", []) :=
  ⟨rfl, (text_signature_kind_rules [tsAttr] "f" (SelfType.Receiver false) "()" [] rfl).1,
    (text_signature_kind_rules [tsAttr] "f" (SelfType.Receiver false) "()" [] rfl).2.2.2.2.2.2.2.1⟩

/-- C1 counterexample: the five forbidden kinds do not each produce a
distinct diagnostic — CallOperator, Getter, Setter and ClassAttribute all
report the very same message for a concrete generated-signature request. -/
theorem text_signature_shared_message_counterexample :
    FnSpec.parse_text_signature [tsAttr] (FnType.FnCall (SelfType.Receiver false)) "f" =
      Except.error "text_signature not allowed with this method type" ∧
    FnSpec.parse_text_signature [tsAttr] (FnType.Getter (SelfType.Receiver false)) "f" =
      Except.error "text_signature not allowed with this method type" ∧
    FnSpec.parse_text_signature [tsAttr] (FnType.Setter (SelfType.Receiver false)) "f" =
      Except.error "text_signature not allowed with this method type" ∧
    FnSpec.parse_text_signature [tsAttr] FnType.ClassAttribute "f" =
      Except.error "text_signature not allowed with this method type" :=
  ⟨rfl, rfl, rfl, rfl⟩

/-- C2 (amended): for the binding kinds requiring a receiver (Plain,
CallOperator, Getter, Setter) parsing fails with the kind's
missing-receiver diagnostic exactly when the parameter list is empty; a
typed (non-self-reference) first parameter is not rejected but accepted as
a fallible-conversion receiver, impl-trait types excepted. -/
theorem receiver_kinds_rules (sig : Signature) (pn : Option String) :
    (sig.inputs = [] →
      FnSpec.parse_fn_type sig none pn =
        Except.error "static method needs #[staticmethod] attribute" ∧
      FnSpec.parse_fn_type sig (some MethodTypeAttribute.Call) pn =
        Except.error "expected receiver for #[call]" ∧
      FnSpec.parse_fn_type sig (some MethodTypeAttribute.Getter) pn =
        Except.error "expected receiver for #[getter]" ∧
      FnSpec.parse_fn_type sig (some MethodTypeAttribute.Setter) pn =
        Except.error "expected receiver for #[setter]") ∧
    (∀ pat ty aattrs rest,
      sig.inputs = SynFnArg.typed pat ty aattrs :: rest → ty ≠ Ty.implTrait →
      FnSpec.parse_fn_type sig none pn =
        Except.ok (FnType.Fn SelfType.TryFromPyCell, true, pn) ∧
      FnSpec.parse_fn_type sig (some MethodTypeAttribute.Call) pn =
        Except.ok (FnType.FnCall SelfType.TryFromPyCell, true, pn) ∧
      FnSpec.parse_fn_type sig (some MethodTypeAttribute.Getter) pn =
        Except.ok (FnType.Getter SelfType.TryFromPyCell, true,
          if pn.isNone then strip_fn_name sig.ident "get_" else pn) ∧
      FnSpec.parse_fn_type sig (some MethodTypeAttribute.Setter) pn =
        Except.ok (FnType.Setter SelfType.TryFromPyCell, true,
          if pn.isNone then strip_fn_name sig.ident "set_" else pn)) := by
  constructor
  · intro h
    refine ⟨?_, ?_, ?_, ?_⟩ <;>
      simp [FnSpec.parse_fn_type, parse_receiver, h]
  · intro pat ty aattrs rest h hty
    have hrecv : parse_method_receiver (SynFnArg.typed pat ty aattrs) =
        Except.ok SelfType.TryFromPyCell := by
      cases ty <;> simp_all [parse_method_receiver]
    refine ⟨?_, ?_, ?_, ?_⟩ <;>
      simp [FnSpec.parse_fn_type, parse_receiver, h, hrecv]

theorem receiver_kinds_rules_witness :
    FnSpec.parse_fn_type sigNoArgs (some MethodTypeAttribute.Getter) none =
      Except.error "expected receiver for #[getter]" ∧
    FnSpec.parse_fn_type sigGetT (some MethodTypeAttribute.Getter) none =
      Except.ok (FnType.Getter SelfType.TryFromPyCell, true, some "x") :=
  ⟨((receiver_kinds_rules sigNoArgs none).1 rfl).2.2.1,
    ((receiver_kinds_rules sigGetT none).2 (Pat.ident "slf" false false)
      (Ty.named "PyRef") [] [] rfl (by decide)).2.2.1⟩

/-- C2 counterexample: a Getter-tagged declaration whose first parameter is
typed (not a receiver-shaped self-reference) does not fail with a
missing-receiver error — the whole declaration parses successfully, binding
the receiver by fallible conversion. -/
theorem typed_first_parameter_accepted_counterexample :
    FnSpec.parse sigGetT [getterAttr] optsNone =
      Except.ok { tp := FnType.Getter SelfType.TryFromPyCell, name := "get_x",
                  python_name := "x", attrs := [], args := [],
                  output := Ty.infer, doc := "", deprecations := [] } := rfl

/-- C6: for Constructor- and CallOperator-tagged declarations a supplied
external-name override is a hard error, and on success the external name is
forced to the fixed identifier of the kind regardless of the declaration's
own name. -/
theorem new_call_forced_names (sig : Signature) (attrs : List Attr)
    (opts : PyFunctionOptions) (ma : MethodAttributes) (rest : List Attr)
    (h1 : parse_method_attributes attrs opts.name = Except.ok (ma, rest)) :
    (ma.ty = some MethodTypeAttribute.New → ma.python_name.isSome →
      FnSpec.parse sig attrs opts = Except.error "`name` not allowed with `#[new]`") ∧
    (ma.ty = some MethodTypeAttribute.Call → ma.python_name.isSome →
      FnSpec.parse sig attrs opts = Except.error "`name` not allowed with `#[call]`") ∧
    (∀ spec, ma.ty = some MethodTypeAttribute.New →
      FnSpec.parse sig attrs opts = Except.ok spec → spec.python_name = "__new__") ∧
    (∀ spec, ma.ty = some MethodTypeAttribute.Call →
      FnSpec.parse sig attrs opts = Except.ok spec → spec.python_name = "__call__") := by
  refine ⟨?_, ?_, ?_, ?_⟩
  · intro hty hpn
    cases hpn' : ma.python_name with
    | none => rw [hpn'] at hpn; simp at hpn
    | some n => simp [FnSpec.parse, h1, hty, hpn']
  · intro hty hpn
    cases hpn' : ma.python_name with
    | none => rw [hpn'] at hpn; simp at hpn
    | some n => simp [FnSpec.parse, h1, hty, hpn']
  · intro spec hty hok
    simp only [FnSpec.parse, h1, hty] at hok
    cases hpn' : ma.python_name with
    | some n => rw [hpn'] at hok; simp at hok
    | none =>
      rw [hpn'] at hok
      simp only [FnSpec.parse_fn_type] at hok
      cases hts : FnSpec.parse_text_signature rest FnType.FnNew
          (unraw ((some "__new__").getD sig.ident)) with
      | error e => rw [hts] at hok; simp at hok
      | ok pr =>
        obtain ⟨ts2, at2⟩ := pr
        rw [hts] at hok
        simp only [Option.getD_some, Bool.false_eq_true, if_false] at hok
        cases hargs : sig.inputs.mapM FnArg.parse with
        | error e => rw [hargs] at hok; simp at hok
        | ok arguments =>
          rw [hargs] at hok
          simp only [Except.ok.injEq] at hok
          rw [← hok]
          rfl
  · intro spec hty hok
    simp only [FnSpec.parse, h1, hty] at hok
    cases hpn' : ma.python_name with
    | some n => rw [hpn'] at hok; simp at hok
    | none =>
      rw [hpn'] at hok
      simp only [FnSpec.parse_fn_type] at hok
      cases hrecv : parse_receiver sig "expected receiver for #[call]" with
      | error e => rw [hrecv] at hok; simp at hok
      | ok st =>
        rw [hrecv] at hok
        simp only [Option.getD_some, if_true] at hok
        cases hts : FnSpec.parse_text_signature rest (FnType.FnCall st)
            (unraw "__call__") with
        | error e => rw [hts] at hok; simp at hok
        | ok pr =>
          obtain ⟨ts2, at2⟩ := pr
          rw [hts] at hok
          simp only [Except.ok.injEq] at hok
          cases hargs : (sig.inputs.drop 1).mapM FnArg.parse with
          | error e => rw [hargs] at hok; simp at hok
          | ok arguments =>
            rw [hargs] at hok
            simp only [Except.ok.injEq] at hok
            rw [← hok]
            rfl

theorem new_call_forced_names_witness :
    FnSpec.parse sigNoArgs [newAttr] { name := some "x", deprecations := [] } =
      Except.error "`name` not allowed with `#[new]`" ∧
    FnSpec.parse sigNoArgs [newAttr] optsNone =
      Except.ok { tp := FnType.FnNew, name := "get_g", python_name := "__new__",
                  attrs := [], args := [], output := Ty.infer, doc := "",
                  deprecations := [] } ∧
    ({ tp := FnType.FnNew, name := "get_g", python_name := "__new__",
       attrs := [], args := [], output := Ty.infer, doc := "",
       deprecations := [] } : FnSpec).python_name = "__new__" ∧
    FnSpec.parse sigRecv [callAttr] optsNone =
      Except.ok { tp := FnType.FnCall (SelfType.Receiver false), name := "f",
                  python_name := "__call__", attrs := [], args := [],
                  output := Ty.infer, doc := "", deprecations := [] } ∧
    ({ tp := FnType.FnCall (SelfType.Receiver false), name := "f",
       python_name := "__call__", attrs := [], args := [], output := Ty.infer,
       doc := "", deprecations := [] } : FnSpec).python_name = "__call__" :=
  ⟨(new_call_forced_names sigNoArgs [newAttr] { name := some "x", deprecations := [] }
      { ty := some MethodTypeAttribute.New, args := [], python_name := some "x" } []
      rfl).1 rfl rfl,
   rfl,
   (new_call_forced_names sigNoArgs [newAttr] optsNone
      { ty := some MethodTypeAttribute.New, args := [], python_name := none } []
      rfl).2.2.1 _ rfl rfl,
   rfl,
   (new_call_forced_names sigRecv [callAttr] optsNone
      { ty := some MethodTypeAttribute.Call, args := [], python_name := none } []
      rfl).2.2.2 _ rfl rfl⟩

/-- C5: for every Getter- or Setter-tagged declaration that parses
successfully, the external name follows the priority: explicit override if
present; otherwise the declaration's own name with the fixed recognized
leading text ("get_" resp. "set_") stripped when present; otherwise the
full name unchanged — modulo raw-identifier unescaping. -/
theorem getter_setter_name_resolution (sig : Signature) (attrs : List Attr)
    (opts : PyFunctionOptions) (ma : MethodAttributes) (rest : List Attr)
    (spec : FnSpec)
    (h1 : parse_method_attributes attrs opts.name = Except.ok (ma, rest))
    (h2 : FnSpec.parse sig attrs opts = Except.ok spec) :
    (ma.ty = some MethodTypeAttribute.Getter →
      spec.python_name = resolved_property_name ma.python_name sig.ident "get_") ∧
    (ma.ty = some MethodTypeAttribute.Setter →
      spec.python_name = resolved_property_name ma.python_name sig.ident "set_") := by
  constructor
  · intro hty
    simp only [FnSpec.parse, h1, hty, FnSpec.parse_fn_type] at h2
    cases hrecv : parse_receiver sig "expected receiver for #[getter]" with
    | error e => rw [hrecv] at h2; simp at h2
    | ok st =>
      rw [hrecv] at h2
      simp only [] at h2
      cases hts : FnSpec.parse_text_signature rest (FnType.Getter st)
          (unraw ((if ma.python_name.isNone then strip_fn_name sig.ident "get_"
                   else ma.python_name).getD sig.ident)) with
      | error e => rw [hts] at h2; simp at h2
      | ok pr =>
        obtain ⟨ts2, at2⟩ := pr
        rw [hts] at h2
        simp only [Except.ok.injEq, if_true] at h2
        cases hargs : (sig.inputs.drop 1).mapM FnArg.parse with
        | error e => rw [hargs] at h2; simp at h2
        | ok arguments =>
          rw [hargs] at h2
          simp only [Except.ok.injEq] at h2
          rw [← h2]
          show unraw ((if ma.python_name.isNone then strip_fn_name sig.ident "get_"
                       else ma.python_name).getD sig.ident) =
            resolved_property_name ma.python_name sig.ident "get_"
          cases hpn : ma.python_name with
          | some n => simp [resolved_property_name, hpn]
          | none =>
            cases hs : strip_fn_name sig.ident "get_" with
            | some stripped => simp [resolved_property_name, hs]
            | none => simp [resolved_property_name, hs]
  · intro hty
    simp only [FnSpec.parse, h1, hty, FnSpec.parse_fn_type] at h2
    cases hrecv : parse_receiver sig "expected receiver for #[setter]" with
    | error e => rw [hrecv] at h2; simp at h2
    | ok st =>
      rw [hrecv] at h2
      simp only [] at h2
      cases hts : FnSpec.parse_text_signature rest (FnType.Setter st)
          (unraw ((if ma.python_name.isNone then strip_fn_name sig.ident "set_"
                   else ma.python_name).getD sig.ident)) with
      | error e => rw [hts] at h2; simp at h2
      | ok pr =>
        obtain ⟨ts2, at2⟩ := pr
        rw [hts] at h2
        simp only [Except.ok.injEq, if_true] at h2
        cases hargs : (sig.inputs.drop 1).mapM FnArg.parse with
        | error e => rw [hargs] at h2; simp at h2
        | ok arguments =>
          rw [hargs] at h2
          simp only [Except.ok.injEq] at h2
          rw [← h2]
          show unraw ((if ma.python_name.isNone then strip_fn_name sig.ident "set_"
                       else ma.python_name).getD sig.ident) =
            resolved_property_name ma.python_name sig.ident "set_"
          cases hpn : ma.python_name with
          | some n => simp [resolved_property_name, hpn]
          | none =>
            cases hs : strip_fn_name sig.ident "set_" with
            | some stripped => simp [resolved_property_name, hs]
            | none => simp [resolved_property_name, hs]

theorem getter_setter_name_resolution_witness :
    FnSpec.parse sigGetX [getterAttr] optsNone =
      Except.ok { tp := FnType.Getter (SelfType.Receiver false), name := "get_x",
                  python_name := "x", attrs := [], args := [], output := Ty.infer,
                  doc := "", deprecations := [] } ∧
    ({ tp := FnType.Getter (SelfType.Receiver false), name := "get_x",
       python_name := "x", attrs := [], args := [], output := Ty.infer,
       doc := "", deprecations := [] } : FnSpec).python_name =
      resolved_property_name none "get_x" "get_" ∧
    resolved_property_name none "get_x" "get_" = "x" ∧
    FnSpec.parse sigGetX [getterNamedAttr] optsNone =
      Except.ok { tp := FnType.Getter (SelfType.Receiver false), name := "get_x",
                  python_name := "y", attrs := [], args := [], output := Ty.infer,
                  doc := "", deprecations := [] } ∧
    ({ tp := FnType.Getter (SelfType.Receiver false), name := "get_x",
       python_name := "y", attrs := [], args := [], output := Ty.infer,
       doc := "", deprecations := [] } : FnSpec).python_name =
      resolved_property_name (some "y") "get_x" "get_" ∧
    resolved_property_name (some "y") "get_x" "get_" = "y" :=
  ⟨rfl,
   (getter_setter_name_resolution sigGetX [getterAttr] optsNone
      { ty := some MethodTypeAttribute.Getter, args := [], python_name := none } []
      _ rfl rfl).1 rfl,
   rfl,
   rfl,
   (getter_setter_name_resolution sigGetX [getterNamedAttr] optsNone
      { ty := some MethodTypeAttribute.Getter, args := [], python_name := some "y" } []
      _ rfl rfl).1 rfl,
   rfl⟩

/-- C10: a ClassMethod-tagged declaration never validates its first
parameter: binding-kind resolution skips it unconditionally, so a
receiver-shaped self-reference in first position parses successfully —
while the same shape under StaticMethod is rejected as an unexpected
receiver when the arguments are collected. -/
theorem classmethod_skips_first_parameter (sig : Signature)
    (opts : PyFunctionOptions) (m : Bool) (rest : List SynFnArg)
    (pn : Option String)
    (h : sig.inputs = SynFnArg.receiver m :: rest) :
    FnSpec.parse_fn_type sig (some MethodTypeAttribute.ClassMethod) pn =
      Except.ok (FnType.FnClass, true, pn) ∧
    FnArg.parse (SynFnArg.receiver m) = Except.error "unexpected receiver" ∧
    FnSpec.parse sig [staticmethodAttr] opts = Except.error "unexpected receiver" ∧
    (∀ args : List FnArg, rest.mapM FnArg.parse = Except.ok args →
      FnSpec.parse sig [classmethodAttr] opts =
        Except.ok { tp := FnType.FnClass, name := sig.ident,
                    python_name := unraw (opts.name.getD sig.ident), attrs := [],
                    args := args, output := get_return_info sig.output,
                    doc := "", deprecations := opts.deprecations }) := by
  obtain ⟨idt, gens, inputs, outp⟩ := sig
  simp only at h
  subst h
  refine ⟨rfl, rfl, rfl, ?_⟩
  intro args hargs
  show (match rest.mapM FnArg.parse with
        | Except.error e => Except.error e
        | Except.ok arguments =>
          Except.ok { tp := FnType.FnClass, name := idt,
                      python_name := unraw (opts.name.getD idt), attrs := [],
                      args := arguments, output := get_return_info outp,
                      doc := "", deprecations := opts.deprecations } :
        Except String FnSpec) =
      Except.ok { tp := FnType.FnClass, name := idt,
                  python_name := unraw (opts.name.getD idt), attrs := [],
                  args := args, output := get_return_info outp,
                  doc := "", deprecations := opts.deprecations }
  rw [hargs]

theorem classmethod_skips_first_parameter_witness :
    FnSpec.parse_fn_type sigRecv (some MethodTypeAttribute.ClassMethod) none =
      Except.ok (FnType.FnClass, true, none) ∧
    FnArg.parse (SynFnArg.receiver false) = Except.error "unexpected receiver" ∧
    FnSpec.parse sigRecv [staticmethodAttr] optsNone =
      Except.error "unexpected receiver" ∧
    FnSpec.parse sigRecv [classmethodAttr] optsNone =
      Except.ok { tp := FnType.FnClass, name := "f", python_name := "f",
                  attrs := [], args := [], output := Ty.infer, doc := "",
                  deprecations := [] } :=
  ⟨(classmethod_skips_first_parameter sigRecv optsNone false [] none rfl).1,
   (classmethod_skips_first_parameter sigRecv optsNone false [] none rfl).2.1,
   (classmethod_skips_first_parameter sigRecv optsNone false [] none rfl).2.2.1,
   (classmethod_skips_first_parameter sigRecv optsNone false [] none rfl).2.2.2 [] rfl⟩

lemma step_err_of_tag (a : Attr) (st : AttrState) (t : MethodTypeAttribute)
    (hty : st.ty = some t) (htag : is_binding_kind_tag a = true) :
    exceptIsOk (parse_method_attributes_step a st) = false := by
  obtain ⟨style, meta⟩ := a
  cases meta with
  | path nm =>
    simp only [is_binding_kind_tag] at htag
    simp only [parse_method_attributes_step]
    repeat' split
    all_goals simp_all [set_ty, exceptIsOk]
  | list p nested =>
    simp only [is_binding_kind_tag] at htag
    simp only [parse_method_attributes_step]
    repeat' split
    all_goals simp_all [set_ty, exceptIsOk]
  | nameValue p l =>
    simp [is_binding_kind_tag] at htag

lemma step_ok_ty_of_not_tag (a : Attr) (st st' : AttrState)
    (hok : parse_method_attributes_step a st = Except.ok st')
    (htag : is_binding_kind_tag a = false) : st'.ty = st.ty := by
  obtain ⟨style, meta⟩ := a
  cases meta with
  | path nm =>
    simp only [is_binding_kind_tag] at htag
    simp only [parse_method_attributes_step] at hok
    repeat' split at hok
    all_goals simp_all [set_ty]
    all_goals (rw [← hok])
  | list p nested =>
    simp only [is_binding_kind_tag] at htag
    simp only [parse_method_attributes_step] at hok
    repeat' split at hok
    all_goals simp_all [set_ty]
    all_goals (rw [← hok])
  | nameValue p l =>
    simp only [parse_method_attributes_step] at hok
    simp only [Except.ok.injEq] at hok
    rw [← hok]

lemma step_ok_ty_some_of_tag (a : Attr) (st st' : AttrState)
    (hok : parse_method_attributes_step a st = Except.ok st')
    (htag : is_binding_kind_tag a = true) : st'.ty.isSome = true := by
  cases hsty : st.ty with
  | some t =>
    have herr := step_err_of_tag a st t hsty htag
    rw [hok] at herr
    simp [exceptIsOk] at herr
  | none =>
    obtain ⟨na, ar, sty, pn⟩ := st
    simp only at hsty
    subst hsty
    obtain ⟨style, meta⟩ := a
    cases meta with
    | path nm =>
      simp only [parse_method_attributes_step, set_ty] at hok
      repeat' split at hok
      all_goals simp_all [is_binding_kind_tag]
      all_goals simp [← hok]
    | list p nested =>
      simp only [parse_method_attributes_step, set_ty] at hok
      repeat' split at hok
      all_goals simp_all [is_binding_kind_tag]
      all_goals simp [← hok]
    | nameValue p l =>
      simp [is_binding_kind_tag] at htag

lemma step_ok_new_attrs (a : Attr) (st st' : AttrState)
    (hok : parse_method_attributes_step a st = Except.ok st') :
    st'.new_attrs = st.new_attrs ++ (if binding_related a then [] else [a]) := by
  obtain ⟨style, meta⟩ := a
  cases meta with
  | path nm =>
    simp only [parse_method_attributes_step, set_ty] at hok
    repeat' split at hok
    all_goals simp_all [binding_related, is_binding_kind_tag]
    all_goals simp [← hok]
  | list p nested =>
    simp only [parse_method_attributes_step, set_ty] at hok
    repeat' split at hok
    all_goals simp_all [binding_related, is_binding_kind_tag]
    all_goals (try simp [← hok])
    all_goals
      (rename_i hset hpn2 hlast
       cases hsty : st.ty with
       | some t => rw [hsty] at hset; simp at hset
       | none =>
         rw [hsty] at hset
         simp only [Except.ok.injEq] at hset
         simp [← hset])
  | nameValue p l =>
    simp only [parse_method_attributes_step] at hok
    simp only [Except.ok.injEq] at hok
    simp [← hok, binding_related, is_binding_kind_tag]

lemma aux_ok_no_tag_of_ty_some (attrs : List Attr) (st st' : AttrState)
    (hty : st.ty.isSome = true)
    (hok : parse_method_attributes_aux attrs st = Except.ok st') :
    attrs.countP (fun a => is_binding_kind_tag a) = 0 := by
  induction attrs generalizing st with
  | nil => simp
  | cons a rest ih =>
    simp only [parse_method_attributes_aux] at hok
    cases hstep : parse_method_attributes_step a st with
    | error e => rw [hstep] at hok; simp at hok
    | ok st1 =>
      rw [hstep] at hok
      obtain ⟨t, hty'⟩ := Option.isSome_iff_exists.mp hty
      cases htag : is_binding_kind_tag a with
      | true =>
        have herr := step_err_of_tag a st t hty' htag
        rw [hstep] at herr
        simp [exceptIsOk] at herr
      | false =>
        have hpres := step_ok_ty_of_not_tag a st st1 hstep htag
        rw [List.countP_cons]
        have hrest := ih st1 (by rw [hpres]; exact hty) hok
        simp [hrest, htag]

lemma aux_ok_count_le_one (attrs : List Attr) (st st' : AttrState)
    (hty : st.ty = none)
    (hok : parse_method_attributes_aux attrs st = Except.ok st') :
    attrs.countP (fun a => is_binding_kind_tag a) ≤ 1 := by
  induction attrs generalizing st with
  | nil => simp
  | cons a rest ih =>
    simp only [parse_method_attributes_aux] at hok
    cases hstep : parse_method_attributes_step a st with
    | error e => rw [hstep] at hok; simp at hok
    | ok st1 =>
      rw [hstep] at hok
      rw [List.countP_cons]
      cases htag : is_binding_kind_tag a with
      | true =>
        have hsome := step_ok_ty_some_of_tag a st st1 hstep htag
        have hzero := aux_ok_no_tag_of_ty_some rest st1 st' hsome hok
        simp [hzero, htag]
      | false =>
        have hpres := step_ok_ty_of_not_tag a st st1 hstep htag
        have hrest := ih st1 (by rw [hpres]; exact hty) hok
        simp [htag]
        exact hrest

lemma aux_ok_new_attrs (attrs : List Attr) (st st' : AttrState)
    (hok : parse_method_attributes_aux attrs st = Except.ok st') :
    st'.new_attrs = st.new_attrs ++ attrs.filter (fun a => !binding_related a) := by
  induction attrs generalizing st with
  | nil =>
    simp only [parse_method_attributes_aux, Except.ok.injEq] at hok
    simp [← hok]
  | cons a rest ih =>
    simp only [parse_method_attributes_aux] at hok
    cases hstep : parse_method_attributes_step a st with
    | error e => rw [hstep] at hok; simp at hok
    | ok st1 =>
      rw [hstep] at hok
      have hstep' := step_ok_new_attrs a st st1 hstep
      have hrest := ih st1 hok
      rw [hrest, hstep', List.filter_cons]
      cases hbr : binding_related a <;> simp [hbr, List.append_assoc]

/-- C4: a declaration carrying two binding-kind annotations — in particular
two distinct ones — fails attribute classification with a hard error; no
kind is ever kept silently. -/
theorem second_binding_kind_rejected (attrs : List Attr) (pn : Option String)
    (h : 2 ≤ attrs.countP (fun a => is_binding_kind_tag a)) :
    exceptIsOk (parse_method_attributes attrs pn) = false := by
  unfold parse_method_attributes
  cases haux : parse_method_attributes_aux attrs
      { new_attrs := [], args := [], ty := none, python_name := pn } with
  | error e => simp [exceptIsOk]
  | ok st =>
    have hle := aux_ok_count_le_one attrs _ st rfl haux
    omega

theorem second_binding_kind_rejected_witness :
    2 ≤ ([classattrAttr, staticmethodAttr].countP (fun a => is_binding_kind_tag a)) ∧
    exceptIsOk (parse_method_attributes [classattrAttr, staticmethodAttr] none) = false ∧
    parse_method_attributes [classattrAttr, staticmethodAttr] none =
      Except.error "cannot specify a second method type" :=
  ⟨by decide, second_binding_kind_rejected [classattrAttr, staticmethodAttr] none (by decide), rfl⟩

/-- C8: when attribute classification succeeds, the surviving annotation
list is exactly the original list filtered of the binding-related
annotations (binding-kind tags, list-shaped accessor tags that may carry a
name override, and argument-shape attributes), with all other annotations
untouched and in their original relative order. -/
theorem classification_keeps_unrelated_attrs (attrs : List Attr)
    (pn : Option String) (ma : MethodAttributes) (kept : List Attr)
    (h : parse_method_attributes attrs pn = Except.ok (ma, kept)) :
    kept = attrs.filter (fun a => !binding_related a) := by
  unfold parse_method_attributes at h
  cases haux : parse_method_attributes_aux attrs
      { new_attrs := [], args := [], ty := none, python_name := pn } with
  | error e => rw [haux] at h; simp at h
  | ok st =>
    rw [haux] at h
    simp only [Except.ok.injEq, Prod.mk.injEq] at h
    have hattrs := aux_ok_new_attrs attrs _ st haux
    rw [← h.2, hattrs]
    simp

theorem classification_keeps_unrelated_attrs_witness :
    parse_method_attributes [getterAttr, docAttr, argsAttr, inlineAttr] none =
      Except.ok ({ ty := some MethodTypeAttribute.Getter,
                   args := [Argument.Arg ["z"] none], python_name := none },
                 [docAttr, inlineAttr]) ∧
    [docAttr, inlineAttr] =
      ([getterAttr, docAttr, argsAttr, inlineAttr].filter
        (fun a => !binding_related a)) :=
  ⟨rfl, classification_keeps_unrelated_attrs [getterAttr, docAttr, argsAttr, inlineAttr]
    none { ty := some MethodTypeAttribute.Getter, args := [Argument.Arg ["z"] none],
           python_name := none } [docAttr, inlineAttr] rfl⟩
